import Mathlib

/-!
Verification development for the h2ogpt-conversation home-assistant integration.

The development shallowly embeds the two source files of the repository,
`config_flow.py` and `__init__.py`, as executable Lean definitions:

* the connection validator `check_connection` and the setup wizard step
  `async_step_user` (with its helper `validate_input`), from `config_flow.py`;
* the plugin activation hook `async_setup_entry` and the conversation agent
  `async_process` (with its helpers `call_h2o_gpt_api`,
  `answer_question_using_context` and the reply-literal parser), from
  `__init__.py`.

External collaborators are modelled explicitly: the HTTP layer (`requests.get`)
is an oracle parameter returning either a status code or a transport-level
exception; the remote inference client (`GradioClient.predict`) is an oracle
field returning either the reply payload string or an exception detail; Python
exceptions are an explicit inductive taxonomy that mirrors the exception
classes the source distinguishes with its `except` clauses.
-/

set_option autoImplicit false

/-- Python exception taxonomy as the source's `except` clauses distinguish it:
`requests.exceptions.HTTPError` (raised by `check_connection` on a non-200
status), `requests.exceptions.ConnectionError` (raised by `requests.get` on a
transport-level failure: DNS, TCP, TLS — documented behaviour of the requests
library; not a subclass of `HTTPError`), `TypeError`, `urllib.request.URLError`
(caught by name in `async_setup_entry`; not a superclass of the requests
exceptions), and a catch-all for any other exception. -/
inductive PyExc where
  | httpError
  | transportError (detail : String)
  | typeError (detail : String)
  | urlError (detail : String)
  | otherError (detail : String)
deriving DecidableEq, Repr

/-- Detail string of an exception, as interpolated into messages such as
`ConfigEntryNotReady(err)`. -/
def describePyExc : PyExc → String
  | PyExc.httpError => "HTTPError"
  | PyExc.transportError d => d
  | PyExc.typeError d => d
  | PyExc.urlError d => d
  | PyExc.otherError d => d

/-- Embedding of `config_flow.check_connection` (config_flow.py lines 42-47):
issue `requests.get(host_url)` (the oracle `get`; its exception propagates);
if the response status code is 200 return the success string, otherwise raise
`requests.exceptions.HTTPError`. Note the function accepts no timeout
parameter and passes none to `requests.get`. -/
def check_connection (get : String → Except PyExc Nat) (host_url : String) :
    Except PyExc String :=
  match get host_url with
  | Except.error e => Except.error e
  | Except.ok status =>
    if status = 200 then Except.ok "Connection to API successful!"
    else Except.error PyExc.httpError

/-- Embedding of `config_flow.validate_input` (config_flow.py lines 50-58).
The source reads
`await hass.async_add_executor_job(partial(check_connection(data[CONF_HOST_URL]), request_timeout=10))`:
`check_connection` is applied immediately (so its exceptions propagate here),
and on success its result string is wrapped in
`partial(result_string, request_timeout=10)`; the executor job then calls that
partial, i.e. calls the string, which raises
`TypeError: 'str' object is not callable`. The keyword `request_timeout=10`
is never received by `check_connection` (which has no such parameter). -/
def validate_input (get : String → Except PyExc Nat) (host_url : String) :
    Except PyExc Unit :=
  match check_connection get host_url with
  | Except.error e => Except.error e
  | Except.ok _s => Except.error (PyExc.typeError "str object is not callable")

/-- Result of a config-flow step: either the form is (re-)shown with an
errors dictionary, or a config entry is created. -/
inductive FlowResult where
  | showForm (errors : List (String × String))
  | createEntry (title : String) (host_url : String)
deriving DecidableEq, Repr

/-- Embedding of `ConfigFlow.async_step_user` (config_flow.py lines 66-89):
with no user input, show the form; otherwise run `validate_input`, mapping
`requests.exceptions.HTTPError` to the field error `cannot_connect`, any
other exception to `unknown`, and on success create the entry. -/
def async_step_user (get : String → Except PyExc Nat)
    (user_input : Option String) : FlowResult :=
  match user_input with
  | none => FlowResult.showForm []
  | some host_url =>
    match validate_input get host_url with
    | Except.error PyExc.httpError => FlowResult.showForm [("base", "cannot_connect")]
    | Except.error _ => FlowResult.showForm [("base", "unknown")]
    | Except.ok _ => FlowResult.createEntry "H2OGPT Conversation" host_url

/-- Outcome of plugin activation: `success` (returns True, agent registered),
`failed` (returns False: setup aborts, the platform does not retry), or
`notReady` (raises `ConfigEntryNotReady`: the platform retries later). -/
inductive SetupResult where
  | success
  | failed
  | notReady (detail : String)
deriving DecidableEq, Repr

/-- Embedding of `async_setup_entry` (__init__.py lines 45-60): run
`check_connection` on the entry's host URL; catch `urllib.request.URLError`
by returning False; catch any other exception by raising
`ConfigEntryNotReady(err)`; on success register the agent and return True. -/
def async_setup_entry (get : String → Except PyExc Nat) (host_url : String) :
    SetupResult :=
  match check_connection get host_url with
  | Except.ok _ => SetupResult.success
  | Except.error (PyExc.urlError _) => SetupResult.failed
  | Except.error e => SetupResult.notReady (describePyExc e)

/-- A Python literal value of the shapes the remote-reply contract uses:
a string literal, or a dict of string-literal keys to string-literal values. -/
inductive PyLit where
  | strLit (s : String)
  | dictLit (kvs : List (String × String))
deriving DecidableEq, Repr

/-- Whitespace test, matching the characters Python treats as blanks in a
literal source. -/
def isPyWs (c : Char) : Bool :=
  c.toNat = 32 || c.toNat = 10 || c.toNat = 9 || c.toNat = 13

/-- Drop leading whitespace characters. -/
def skipWs : List Char → List Char
  | [] => []
  | c :: cs => if isPyWs c then skipWs cs else c :: cs

/-- Translate the character following a backslash in a Python string literal. -/
def unescapeChar (c : Char) : Char :=
  if c.toNat = 110 then Char.ofNat 10
  else if c.toNat = 116 then Char.ofNat 9
  else if c.toNat = 114 then Char.ofNat 13
  else c

/-- Scan the body of a Python string literal delimited by the quote `q`
(single or double): consume up to the closing quote, translating backslash
escapes; `esc` records a pending backslash. Returns the decoded body and the
remaining input, or failure at end of input. -/
def scanStrBody (q : Char) (esc : Bool) : List Char → Option (List Char × List Char)
  | [] => none
  | c :: cs =>
    if esc then
      match scanStrBody q false cs with
      | none => none
      | some (body, rest) => some (unescapeChar c :: body, rest)
    else if c = q then some ([], cs)
    else if c.toNat = 92 then scanStrBody q true cs
    else
      match scanStrBody q false cs with
      | none => none
      | some (body, rest) => some (c :: body, rest)

/-- Scan one Python string literal (after optional whitespace), accepting a
single- or double-quote delimiter. -/
def scanStrLit (cs : List Char) : Option (String × List Char) :=
  match skipWs cs with
  | [] => none
  | c :: rest =>
    if c.toNat = 39 || c.toNat = 34 then
      match scanStrBody c false rest with
      | none => none
      | some (body, r) => some (String.mk body, r)
    else none

/-- Scan the comma-separated key-value pairs of a dict literal up to and
including the closing brace; `fuel` bounds the recursion by the input length. -/
def scanPairs (fuel : Nat) (cs : List Char) :
    Option (List (String × String) × List Char) :=
  match fuel with
  | 0 => none
  | fuel + 1 =>
    match scanStrLit cs with
    | none => none
    | some (k, r1) =>
      match skipWs r1 with
      | [] => none
      | c :: r2 =>
        if c = ':' then
          match scanStrLit r2 with
          | none => none
          | some (v, r3) =>
            match skipWs r3 with
            | [] => none
            | c2 :: r4 =>
              if c2 = ',' then
                match scanPairs fuel r4 with
                | none => none
                | some (tail, r5) => some ((k, v) :: tail, r5)
              else if c2.toNat = 125 then some ([(k, v)], r4)
              else none
        else none

/-- Modelled from the spec: `ast.literal_eval` (Python standard library, an
external collaborator) restricted to the payload shapes of the
agent-to-remote contract — "a stringified structured value from which a
`response` string field is extracted", i.e. a dict of string literals, or a
bare string literal; any other input is a parse failure (`none`), standing
for the `ValueError`/`SyntaxError` that `ast.literal_eval` raises. -/
def literal_eval (s : String) : Option PyLit :=
  match skipWs s.toList with
  | [] => none
  | c :: rest =>
    if c.toNat = 123 then
      match skipWs rest with
      | [] => none
      | c2 :: r2 =>
        if c2.toNat = 125 then
          if (skipWs r2).isEmpty then some (PyLit.dictLit []) else none
        else
          match scanPairs rest.length (c2 :: r2) with
          | none => none
          | some (kvs, r3) =>
            if (skipWs r3).isEmpty then some (PyLit.dictLit kvs) else none
    else
      match scanStrLit (c :: rest) with
      | none => none
      | some (s2, r) =>
        if (skipWs r).isEmpty then some (PyLit.strLit s2) else none

/-- First value bound to the key `k`, as Python dict subscription on a dict
built from the parsed pair list. -/
def lookupKV (kvs : List (String × String)) (k : String) : Option String :=
  match kvs with
  | [] => none
  | (k2, v) :: rest => if k2 = k then lookupKV rest k |>.getD v |> some else lookupKV rest k

/-- Embedding of the reply extraction in `answer_question_using_context`
(__init__.py line 93): `ast.literal_eval(answer)["response"]`. A parse
failure, a non-dict literal (string subscription raises `TypeError`) and a
missing key (`KeyError`) all raise — modelled as the error branch with the
exception detail. -/
def extract_response (answer : String) : Except String String :=
  match literal_eval answer with
  | none => Except.error ("malformed literal: " ++ answer)
  | some (PyLit.strLit _) => Except.error "string indices must be integers"
  | some (PyLit.dictLit kvs) =>
    match lookupKV kvs "response" with
    | some v => Except.ok v
    | none => Except.error "KeyError: response"

/-- Modelled from the spec: `h2ogpt_gradio_client.GradioClient` is repository
code not present under src/. Per the spec it is a black-box handle on "one
RPC operation, targeting a named endpoint, accepting a stringified mapping
... returning a stringified result"; `predict` takes the stringified kwargs
and the `api_name` and either returns the textual result or fails with an
exception detail. The spec lists only the connection check and the RPC call
as fallible network steps, so constructing the handle does not fail. -/
structure GradioClient where
  predict : String → String → Except String String

/-- The keyword-argument record built by `_call_h2o_gpt_api`
(__init__.py lines 72-76): exactly the keys `stream_output`, `max_time`
and `instruction_nochat`. -/
structure Kwargs where
  stream_output : Bool
  max_time : Nat
  instruction_nochat : String
deriving DecidableEq, Repr

/-- Escape one character the way Python `repr` renders it inside a
single-quoted string: backslash, single quote, newline, tab and carriage
return are escaped, other characters are kept. -/
def pyEscapeChar (c : Char) : String :=
  if c.toNat = 92 then "\x5c\x5c"
  else if c.toNat = 39 then "\x5c\x27"
  else if c.toNat = 10 then "\x5cn"
  else if c.toNat = 9 then "\x5ct"
  else if c.toNat = 13 then "\x5cr"
  else String.singleton c

/-- Python `repr` of a string as it appears inside `str(dict)` output:
single-quoted with escapes (model for strings whose characters are printable
and, as in the prompts this code builds, contain no single quote). -/
def pyReprStr (s : String) : String :=
  "\x27" ++ String.join (s.toList.map pyEscapeChar) ++ "\x27"

/-- Python `str(kwargs)` for the request record: renders the dict in
insertion order with `True`/`False` booleans, decimal integers and
`repr`-quoted strings, exactly the serialization `_call_h2o_gpt_api`
passes to `client.predict`. -/
def pyStrOfKwargs (k : Kwargs) : String :=
  "\x7b\x27stream_output\x27: " ++ (if k.stream_output then "True" else "False")
    ++ ", \x27max_time\x27: " ++ toString k.max_time
    ++ ", \x27instruction_nochat\x27: " ++ pyReprStr k.instruction_nochat ++ "\x7d"

/-- Embedding of the module constant `prompt_template` applied by
`str.format` (__init__.py lines 80-85 and 91): the triple-quoted template
is a newline, a line of three double quotes, the context, another line of
three double quotes, the question, and a final newline. -/
def prompt_template (context question : String) : String :=
  "\n\"\"\"\n" ++ context ++ "\n\"\"\"\n" ++ question ++ "\n"

/-- Embedding of `_call_h2o_gpt_api` (__init__.py lines 70-77):
`client.predict(str(kwargs), api_name="/submit_nochat_api")` with
`kwargs = dict(stream_output=False, max_time=360, instruction_nochat=prompt)`.
Alongside the outcome it returns the list of `(stringified kwargs, api_name)`
calls issued to the remote client, so request-shape properties are stated
on the embedding itself. -/
def call_h2o_gpt_api (client : GradioClient) (prompt : String) :
    Except String String × List (String × String) :=
  let kwargsStr := pyStrOfKwargs
    { stream_output := false, max_time := 360, instruction_nochat := prompt }
  (client.predict kwargsStr "/submit_nochat_api", [(kwargsStr, "/submit_nochat_api")])

/-- Embedding of `answer_question_using_context` (__init__.py lines 88-93):
format the prompt template with the context and question, call the remote
API, and extract the `response` field of the literal-parsed answer. Any
exception (remote failure or parse/extraction failure) is the error branch. -/
def answer_question_using_context (client : GradioClient)
    (question context : String) : Except String String × List (String × String) :=
  let prompt := prompt_template context question
  let call := call_h2o_gpt_api client prompt
  match call.1 with
  | Except.error e => (Except.error e, call.2)
  | Except.ok answer => (extract_response answer, call.2)

/-- A stored history entry: the code appends dicts
`\x7b"role": r, "content": c\x7d` for the system seed and user turns, but
appends the raw reply string itself for assistant replies
(__init__.py line 153). -/
inductive Message where
  | roleContent (role content : String)
  | bare (s : String)
deriving DecidableEq, Repr

/-- The agent's session map `self.history : dict[str, list[dict]]`, embedded
as an association list from conversation id to message list. -/
def History : Type := List (String × List Message)

/-- Dict lookup `self.history[cid]` / membership `cid in self.history`. -/
def hget (h : History) (k : String) : Option (List Message) :=
  match h with
  | [] => none
  | (k2, v) :: t => if k2 = k then some v else hget t k

/-- Dict assignment `self.history[cid] = msgs`: replace the binding if the
key is present, otherwise add it. -/
def hset (h : History) (k : String) (v : List Message) : History :=
  match h with
  | [] => [(k, v)]
  | (k2, v2) :: t => if k2 = k then (k2, v) :: t else (k2, v2) :: hset t k v

/-- Number of sessions stored in the map. -/
def sessionCount (h : History) : Nat :=
  List.length h

/-- The conversation input handed to `async_process` by the platform:
utterance text, optional conversation id, language. -/
structure ConversationInput where
  text : String
  conversation_id : Option String
  language : String

/-- The intent response the agent returns: language, optional error code
(`async_set_error` sets `unknown`), and the speech / error message text. -/
structure IntentResponse where
  language : String
  errorCode : Option String
  speech : String
deriving DecidableEq, Repr

/-- The conversation result: response plus conversation id. -/
structure ConversationResult where
  response : IntentResponse
  conversation_id : String
deriving DecidableEq, Repr

/-- Session resolution in `async_process` (__init__.py lines 123-128): if the
input's conversation id is a key of the history map, use it and its stored
list (`true` marks this aliasing case); otherwise mint a fresh id
(`ulid.ulid()`, supplied as the oracle `freshId`) and seed a new list with
the single system message carrying the current prompt context. -/
def resolveSession (ctx : String) (history : History) (freshId : String)
    (cid : Option String) : String × List Message × Bool :=
  match cid with
  | some c =>
    match hget history c with
    | some msgs => (c, msgs, true)
    | none => (freshId, [Message.roleContent "system" ctx], false)
  | none => (freshId, [Message.roleContent "system" ctx], false)

/-- Embedding of `H2OGPTAgent.async_process` (__init__.py lines 110-160).
`ctx` is `entry.options.get(CONF_PROMPT_CONTEXT, DEFAULT_PROMPT_CONTEXT)`
read on every call; `freshId` is this call's `ulid.ulid()` value. The
steps mirror the source: resolve the session; append the user message —
for an existing session `messages` aliases the stored list, so this append
mutates the map at once; run `answer_question_using_context` inside the
single try; on exception return the synthesized `unknown` error response
with the resolved conversation id; on success append the raw reply string,
store the list under the id, and return the speech response. The value is
the conversation result, the history map after the call, and the list of
remote calls issued. -/
def async_process (client : GradioClient) (ctx : String) (history : History)
    (freshId : String) (inp : ConversationInput) :
    ConversationResult × History × List (String × String) :=
  let resolved := resolveSession ctx history freshId inp.conversation_id
  let cid := resolved.1
  let messages1 := resolved.2.1 ++ [Message.roleContent "user" inp.text]
  let historyMid := if resolved.2.2 then hset history cid messages1 else history
  let call := answer_question_using_context client inp.text ctx
  match call.1 with
  | Except.error err =>
    ({ response :=
        { language := inp.language, errorCode := some "unknown",
          speech := "Sorry, I had a problem talking to H2OGPT: " ++ err },
       conversation_id := cid },
     historyMid, call.2)
  | Except.ok result =>
    let messages2 := messages1 ++ [Message.bare result]
    ({ response :=
        { language := inp.language, errorCode := none, speech := result },
       conversation_id := cid },
     hset historyMid cid messages2, call.2)

/-- The remote interaction of one `async_process` call, as seen from the
try block: the outcome of `answer_question_using_context` for a given
utterance under the current prompt context. -/
def remoteReply (client : GradioClient) (ctx text : String) :
    Except String String :=
  (answer_question_using_context client text ctx).1

/-- Value of a successful outcome (arbitrary on the error branch). -/
def okValue : Except String String → String
  | Except.ok v => v
  | Except.error _ => ""

/-- The pair of entries a successful call appends for each utterance of a
run: the user record followed by the bare reply string. -/
def turnsFor (client : GradioClient) (ctx : String) : List String → List Message
  | [] => []
  | t :: ts =>
    Message.roleContent "user" t ::
      Message.bare (okValue (remoteReply client ctx t)) :: turnsFor client ctx ts

/-- Iterate `async_process` over a list of utterances, each call presenting
the same conversation id; threads the history map through the calls. -/
def processCalls (client : GradioClient) (ctx : String) (history : History)
    (cid lang : String) : List String → History
  | [] => history
  | t :: ts =>
    processCalls client ctx
      (async_process client ctx history cid
        { text := t, conversation_id := some cid, language := lang }).2.1
      cid lang ts

/-- A remote client whose endpoint always answers the payload
`\x7b'response': 'hi there'\x7d`. -/
def clientOk : GradioClient :=
  { predict := fun _ _ => Except.ok "\x7b\x27response\x27: \x27hi there\x27\x7d" }

/-- A remote client whose endpoint always raises with detail `boom`. -/
def clientFail : GradioClient :=
  { predict := fun _ _ => Except.error "boom" }

/-- A remote client whose endpoint returns the malformed payload
`not a dict`. -/
def clientNotDict : GradioClient :=
  { predict := fun _ _ => Except.ok "not a dict" }

/-- An HTTP oracle answering every GET with the given status code. -/
def getStatus (s : Nat) : String → Except PyExc Nat :=
  fun _ => Except.ok s

/-- An HTTP oracle failing every GET with a transport-level error
(`requests.exceptions.ConnectionError`, e.g. a DNS failure). -/
def getTransportFail : String → Except PyExc Nat :=
  fun _ => Except.error (PyExc.transportError "dns failure")

/-- An HTTP oracle failing every GET with a generic exception. -/
def getOtherFail : String → Except PyExc Nat :=
  fun _ => Except.error (PyExc.otherError "boom")

/-- A concrete first utterance with no conversation id. -/
def inpHi : ConversationInput :=
  { text := "hi", conversation_id := none, language := "en" }

/-- A concrete utterance presenting the existing conversation id `abc`. -/
def inpHiAbc : ConversationInput :=
  { text := "hi", conversation_id := some "abc", language := "en" }

/-- A history map holding one session `abc` seeded with its system message. -/
def histAbc : History :=
  [("abc", [Message.roleContent "system" "ctx"])]

/-- Lookup after assignment at the same key returns the assigned value. -/
theorem hget_hset_self (h : History) (k : String) (v : List Message) :
    hget (hset h k v) k = some v := by
  induction h with
  | nil => simp [hset, hget]
  | cons p t ih =>
    obtain ⟨k2, v2⟩ := p
    by_cases hk : k2 = k
    · simp [hset, hget, hk]
    · simp [hset, hget, hk, ih]

/-- Lookup after assignment at a different key is unchanged. -/
theorem hget_hset_ne (h : History) (k k2 : String) (v : List Message)
    (hne : k2 ≠ k) : hget (hset h k v) k2 = hget h k2 := by
  induction h with
  | nil => simp [hset, hget, Ne.symm hne]
  | cons p t ih =>
    obtain ⟨k3, v3⟩ := p
    by_cases hk : k3 = k
    · subst hk
      simp [hset, hget, Ne.symm hne]
    · simp [hset, hget, hk, ih]

/-- Two assignments at the same key collapse to the second. -/
theorem hset_hset (h : History) (k : String) (v1 v2 : List Message) :
    hset (hset h k v1) k v2 = hset h k v2 := by
  induction h with
  | nil => simp [hset]
  | cons p t ih =>
    obtain ⟨k2, v3⟩ := p
    by_cases hk : k2 = k
    · simp [hset, hk]
    · simp [hset, hk, ih]

/-- Assigning a key absent from the map adds one session. -/
theorem sessionCount_hset_fresh (h : History) (k : String) (v : List Message)
    (hfresh : hget h k = none) :
    sessionCount (hset h k v) = sessionCount h + 1 := by
  induction h with
  | nil => simp [hset, sessionCount]
  | cons p t ih =>
    obtain ⟨k2, v2⟩ := p
    by_cases hk : k2 = k
    · simp [hget, hk] at hfresh
    · simp [hget, hk] at hfresh
      simp [hset, sessionCount, hk] at ih ⊢
      exact ih hfresh

/-- Assigning a key present in the map keeps the session count. -/
theorem sessionCount_hset_mem (h : History) (k : String) (v L : List Message)
    (hmem : hget h k = some L) :
    sessionCount (hset h k v) = sessionCount h := by
  induction h with
  | nil => simp [hget] at hmem
  | cons p t ih =>
    obtain ⟨k2, v2⟩ := p
    by_cases hk : k2 = k
    · simp [hset, sessionCount, hk]
    · simp [hget, hk] at hmem
      simp [hset, sessionCount, hk] at ih ⊢
      exact ih hmem

/-- Claim C1, code evaluated at the failing input. The claim says that a
successful reachability check lets the wizard create the configuration entry
with no error, and that the wizard path supplies a 10-unit timeout to the
check. In the source, `validate_input` calls `check_connection` eagerly and
wraps its success string in `partial(..., request_timeout=10)`; the executor
then calls that string, raising `TypeError`, so even when the GET returns
status 200 the wizard records the field error `unknown` and re-renders the
form — the entry is never created, and no timeout reaches `requests.get`
(`check_connection` has no timeout parameter). -/
theorem c1_wizard_success_path_eval :
    async_step_user (getStatus 200) (some "http://host:7860") =
      FlowResult.showForm [("base", "unknown")] ∧
    validate_input (getStatus 200) "http://host:7860" =
      Except.error (PyExc.typeError "str object is not callable") := by
  exact ⟨rfl, rfl⟩

/-- Claim C2, counterexample. The claim says a transport-level failure (DNS,
TCP, TLS) is signaled as the distinguished error type the wizard maps to the
`cannot_connect` field error. In the source, `requests.get` raises
`requests.exceptions.ConnectionError`, which is not an `HTTPError`, so it
falls through to the broad handler and the wizard shows `unknown` instead. -/
theorem c2_counterexample :
    check_connection getTransportFail "http://h" =
      Except.error (PyExc.transportError "dns failure") ∧
    async_step_user getTransportFail (some "http://h") =
      FlowResult.showForm [("base", "unknown")] := by
  exact ⟨rfl, rfl⟩

/-- Claim C2, amended: `check_connection` returns the success indicator iff
the GET yields status exactly 200, and any other status raises the
distinguished `HTTPError`, which the wizard maps to the `cannot_connect`
field error; a transport-level failure instead propagates as the transport
`ConnectionError`, which the wizard's broad handler maps to `unknown`. -/
theorem c2_amended_reachability (get : String → Except PyExc Nat) (url : String) :
    (∀ s, get url = Except.ok s →
      ((check_connection get url = Except.ok "Connection to API successful!" ↔
          s = 200) ∧
        (s ≠ 200 →
          check_connection get url = Except.error PyExc.httpError ∧
          async_step_user get (some url) =
            FlowResult.showForm [("base", "cannot_connect")]))) ∧
    (∀ d, get url = Except.error (PyExc.transportError d) →
      check_connection get url = Except.error (PyExc.transportError d) ∧
      async_step_user get (some url) = FlowResult.showForm [("base", "unknown")]) := by
  constructor
  · intro s hs
    constructor
    · constructor
      · intro hok
        by_contra hne
        simp [check_connection, hs, hne] at hok
      · intro h200
        simp [check_connection, hs, h200]
    · intro hne
      constructor
      · simp [check_connection, hs, hne]
      · simp [async_step_user, validate_input, check_connection, hs, hne]
  · intro d hd
    constructor
    · simp [check_connection, hd]
    · simp [async_step_user, validate_input, check_connection, hd]

/-- Claim C2, witness: the amended theorem applied to the concrete
transport-failing oracle. -/
theorem c2_amended_reachability_witness :
    getTransportFail "http://h" = Except.error (PyExc.transportError "dns failure") ∧
    (check_connection getTransportFail "http://h" =
        Except.error (PyExc.transportError "dns failure") ∧
      async_step_user getTransportFail (some "http://h") =
        FlowResult.showForm [("base", "unknown")]) := by
  exact ⟨rfl, (c2_amended_reachability getTransportFail "http://h").2 "dns failure" rfl⟩

/-- Claim C8, counterexample. The claim says any exception other than a
reachability failure is fatal at setup and aborts activation. In the source,
`async_setup_entry` converts every exception except `urllib.request.URLError`
into `ConfigEntryNotReady` — "not ready, retry later" — so a generic
exception during setup validation is retried, not fatal. -/
theorem c8_counterexample :
    async_setup_entry getOtherFail "http://h" = SetupResult.notReady "boom" := by
  exact rfl

/-- Claim C8, amended: a reachability failure — e.g. the host URL's server
returning status 503, which makes `check_connection` raise `HTTPError` —
prevents activation by raising `ConfigEntryNotReady` ("not ready, retry
later"), and so does a transport-level failure; any other exception during
setup validation is likewise converted to `ConfigEntryNotReady` rather than
fatally aborting. The only aborting branch (`return False`) is reserved for
`urllib.request.URLError`, which `check_connection` never raises. -/
theorem c8_amended_setup (get : String → Except PyExc Nat) (url : String) :
    (∀ s, get url = Except.ok s → s ≠ 200 →
      async_setup_entry get url = SetupResult.notReady "HTTPError") ∧
    (∀ d, get url = Except.error (PyExc.transportError d) →
      async_setup_entry get url = SetupResult.notReady d) ∧
    (∀ d, get url = Except.error (PyExc.otherError d) →
      async_setup_entry get url = SetupResult.notReady d) ∧
    (∀ d, get url = Except.error (PyExc.urlError d) →
      async_setup_entry get url = SetupResult.failed) := by
  refine ⟨?_, ?_, ?_, ?_⟩
  · intro s hs hne
    simp [async_setup_entry, check_connection, describePyExc, hs, hne]
  · intro d hd
    simp [async_setup_entry, check_connection, describePyExc, hd]
  · intro d hd
    simp [async_setup_entry, check_connection, describePyExc, hd]
  · intro d hd
    simp [async_setup_entry, check_connection, hd]

/-- Claim C8, witness: the amended theorem applied to a stub server
answering status 503. -/
theorem c8_amended_setup_witness :
    getStatus 503 "http://h" = Except.ok 503 ∧ (503 : Nat) ≠ 200 ∧
    async_setup_entry (getStatus 503) "http://h" = SetupResult.notReady "HTTPError" := by
  exact ⟨rfl, by decide,
    (c8_amended_setup (getStatus 503) "http://h").1 503 rfl (by decide)⟩

/-- Claim C6: parsing the remote reply payload holding a dict literal with a
`response` field of `hello` and extracting that field yields the reply
string `hello`; for the malformed payload `not a dict` the parse failure is
caught inside `async_process` and converted into the synthesized error
response (error code `unknown`) rather than propagating — the call still
returns a result carrying the minted conversation id. -/
theorem c6_literal_roundtrip_and_malformed :
    extract_response "\x7b\"response\": \"hello\"\x7d" = Except.ok "hello" ∧
    (async_process clientNotDict "ctx" [] "F1" inpHi).1 =
      { response :=
          { language := "en", errorCode := some "unknown",
            speech :=
              "Sorry, I had a problem talking to H2OGPT: malformed literal: not a dict" },
        conversation_id := "F1" } := by
  exact ⟨rfl, rfl⟩

/-- The remote-call log of `answer_question_using_context` is the log of its
single `call_h2o_gpt_api` call, whatever the outcome. -/
theorem answer_question_log (client : GradioClient) (q c : String) :
    (answer_question_using_context client q c).2 =
      (call_h2o_gpt_api client (prompt_template c q)).2 := by
  simp only [answer_question_using_context]
  split <;> rfl

/-- The remote-call log of `async_process` is the log of its single
`answer_question_using_context` call, whatever the outcome. -/
theorem async_process_log (client : GradioClient) (ctx : String)
    (history : History) (freshId : String) (inp : ConversationInput) :
    (async_process client ctx history freshId inp).2.2 =
      (answer_question_using_context client inp.text ctx).2 := by
  simp only [async_process]
  split <;> rfl

/-- Claim C7: every `async_process` call issues exactly one remote call, whose
first argument is the Python `str` of the mapping with exactly the keys
`stream_output = False`, `max_time = 360` and `instruction_nochat` bound to
the prompt built from the fixed two-part template (delimited context block,
then the literal question text), targeting the named procedure
`/submit_nochat_api`; the history map does not occur in the request (the
request is the same for every `history`). -/
theorem c7_request_shape (client : GradioClient) (ctx : String)
    (history : History) (freshId : String) (inp : ConversationInput) :
    (async_process client ctx history freshId inp).2.2 =
      [(pyStrOfKwargs
          { stream_output := false, max_time := 360,
            instruction_nochat := prompt_template ctx inp.text },
        "/submit_nochat_api")] ∧
    pyStrOfKwargs
        { stream_output := false, max_time := 360,
          instruction_nochat := prompt_template ctx inp.text } =
      "\x7b\x27stream_output\x27: " ++ "False" ++ ", \x27max_time\x27: " ++ "360"
        ++ ", \x27instruction_nochat\x27: "
        ++ pyReprStr (prompt_template ctx inp.text) ++ "\x7d" := by
  constructor
  · rw [async_process_log, answer_question_log]
    rfl
  · unfold pyStrOfKwargs
    rw [show toString (360 : Nat) = "360" from rfl]
    rfl

/-- Claim C5: every error raised inside the remote interaction of a
per-utterance call is caught (the embedding is a total function into
results: nothing propagates to the dispatcher) and converted into the
synthesized error reply `Sorry, I had a problem talking to H2OGPT: <detail>`
tagged with the `unknown` error classification, while the resolved — possibly
freshly minted — conversation id is still returned. -/
theorem c5_errors_caught (client : GradioClient) (ctx : String)
    (history : History) (freshId : String) (inp : ConversationInput)
    (e : String)
    (hfail : (answer_question_using_context client inp.text ctx).1 =
      Except.error e) :
    (async_process client ctx history freshId inp).1 =
      { response :=
          { language := inp.language, errorCode := some "unknown",
            speech := "Sorry, I had a problem talking to H2OGPT: " ++ e },
        conversation_id := (resolveSession ctx history freshId inp.conversation_id).1 } := by
  simp only [async_process]
  rw [hfail]

/-- Claim C5, witness: the theorem applied to the concrete failing client on
a fresh conversation. -/
theorem c5_errors_caught_witness :
    (answer_question_using_context clientFail "ctx" "hi").1 = Except.error "boom" ∧
    (async_process clientFail "ctx" [] "F1" inpHi).1 =
      { response :=
          { language := "en", errorCode := some "unknown",
            speech := "Sorry, I had a problem talking to H2OGPT: boom" },
        conversation_id := "F1" } := by
  exact ⟨rfl, c5_errors_caught clientFail "ctx" [] "F1" inpHi "boom" rfl⟩

/-- Characterization of a failing `async_process` call in terms of its
resolved session: the synthesized error result carries the resolved id, the
map is updated only through the user-message append aliasing (present
exactly when the session existed), and the remote log is that of the single
remote interaction. -/
theorem async_process_err_run (client : GradioClient) (ctx : String)
    (h : History) (freshId : String) (inp : ConversationInput) (e : String)
    (cid : String) (msgs : List Message) (ex : Bool)
    (hres : resolveSession ctx h freshId inp.conversation_id = (cid, msgs, ex))
    (hfail : (answer_question_using_context client inp.text ctx).1 =
      Except.error e) :
    async_process client ctx h freshId inp =
      ({ response :=
          { language := inp.language, errorCode := some "unknown",
            speech := "Sorry, I had a problem talking to H2OGPT: " ++ e },
         conversation_id := cid },
       if ex then hset h cid (msgs ++ [Message.roleContent "user" inp.text]) else h,
       (answer_question_using_context client inp.text ctx).2) := by
  simp only [async_process, hres]
  rw [hfail]

/-- Characterization of a successful `async_process` call in terms of its
resolved session: the reply is returned as speech, and the map stores the
resolved message list extended by the user record and the bare reply string
under the resolved id. -/
theorem async_process_ok_run (client : GradioClient) (ctx : String)
    (h : History) (freshId : String) (inp : ConversationInput) (r : String)
    (cid : String) (msgs : List Message) (ex : Bool)
    (hres : resolveSession ctx h freshId inp.conversation_id = (cid, msgs, ex))
    (hok : (answer_question_using_context client inp.text ctx).1 =
      Except.ok r) :
    async_process client ctx h freshId inp =
      ({ response := { language := inp.language, errorCode := none, speech := r },
         conversation_id := cid },
       hset (if ex then hset h cid (msgs ++ [Message.roleContent "user" inp.text]) else h)
         cid (msgs ++ [Message.roleContent "user" inp.text] ++ [Message.bare r]),
       (answer_question_using_context client inp.text ctx).2) := by
  simp only [async_process, hres]
  rw [hok]

/-- The conversation id returned by `async_process` is always the resolved
session id, whatever the outcome of the remote interaction. -/
theorem async_process_conversation_id (client : GradioClient) (ctx : String)
    (h : History) (freshId : String) (inp : ConversationInput) :
    (async_process client ctx h freshId inp).1.conversation_id =
      (resolveSession ctx h freshId inp.conversation_id).1 := by
  simp only [async_process]
  split <;> rfl

/-- Claim C3, counterexample. The claim says the stored message list length
is unchanged by a failed call. For an existing session, the source's
`messages` aliases the stored list, and `messages.append({"role": "user", ...})`
runs before the try block: on a remote failure the stored list has grown
from one entry to two. -/
theorem c3_counterexample :
    hget histAbc "abc" = some [Message.roleContent "system" "ctx"] ∧
    hget (async_process clientFail "ctx" histAbc "F1" inpHiAbc).2.1 "abc" =
      some [Message.roleContent "system" "ctx", Message.roleContent "user" "hi"] := by
  exact ⟨rfl, rfl⟩

/-- Claim C3, amended: when the remote interaction fails, an existing
session's stored list grows by exactly the appended user message (no reply
is appended, no other corruption), a previously unseen session leaves the
map unchanged, and the returned session id equals the input id
(respectively the freshly minted id). -/
theorem c3_amended_failure_bookkeeping (client : GradioClient) (ctx : String)
    (history : History) (freshId : String) (inp : ConversationInput) (e : String)
    (hfail : (answer_question_using_context client inp.text ctx).1 =
      Except.error e) :
    (∀ c L, inp.conversation_id = some c → hget history c = some L →
      (async_process client ctx history freshId inp).2.1 =
        hset history c (L ++ [Message.roleContent "user" inp.text]) ∧
      (async_process client ctx history freshId inp).1.conversation_id = c) ∧
    ((∀ c, inp.conversation_id = some c → hget history c = none) →
      (async_process client ctx history freshId inp).2.1 = history ∧
      (async_process client ctx history freshId inp).1.conversation_id = freshId) := by
  constructor
  · intro c L hc hl
    have hres : resolveSession ctx history freshId inp.conversation_id = (c, L, true) := by
      simp [resolveSession, hc, hl]
    rw [async_process_err_run client ctx history freshId inp e c L true hres hfail]
    exact ⟨rfl, rfl⟩
  · intro hun
    have hres : resolveSession ctx history freshId inp.conversation_id =
        (freshId, [Message.roleContent "system" ctx], false) := by
      cases hc : inp.conversation_id with
      | none => simp [resolveSession]
      | some c => simp [resolveSession, hun c hc]
    rw [async_process_err_run client ctx history freshId inp e freshId
      [Message.roleContent "system" ctx] false hres hfail]
    exact ⟨rfl, rfl⟩

/-- Claim C3, witness: the amended theorem applied to the failing client and
the stored session `abc`. -/
theorem c3_amended_failure_bookkeeping_witness :
    (answer_question_using_context clientFail "hi" "ctx").1 = Except.error "boom" ∧
    hget histAbc "abc" = some [Message.roleContent "system" "ctx"] ∧
    ((async_process clientFail "ctx" histAbc "F1" inpHiAbc).2.1 =
        hset histAbc "abc"
          [Message.roleContent "system" "ctx", Message.roleContent "user" "hi"] ∧
      (async_process clientFail "ctx" histAbc "F1" inpHiAbc).1.conversation_id = "abc") := by
  exact ⟨rfl, rfl,
    (c3_amended_failure_bookkeeping clientFail "ctx" histAbc "F1" inpHiAbc "boom" rfl).1
      "abc" [Message.roleContent "system" "ctx"] rfl rfl⟩

/-- The last element of a list extended by a final pair is the pair's second
component. -/
theorem getLast_append_pair (l : List Message) (x y : Message) :
    (l ++ [x, y]).getLast? = some y := by
  have h1 : l ++ [x, y] = (l ++ [x]) ++ [y] := by
    simp
  rw [h1, List.getLast?_concat]

/-- Claim C9: on every successful call the element appended as the reply is
the raw extracted reply string itself (`Message.bare`), not a role/content
record: the stored list under the resolved id is the resolved prefix
followed by the role/content user record and the bare reply string, its
last element is that bare string, and for a previously unseen session the
prefix is exactly the role/content system record. -/
theorem c9_reply_stored_as_bare_string (client : GradioClient) (ctx : String)
    (history : History) (freshId : String) (inp : ConversationInput) (r : String)
    (hok : (answer_question_using_context client inp.text ctx).1 = Except.ok r) :
    hget (async_process client ctx history freshId inp).2.1
        (resolveSession ctx history freshId inp.conversation_id).1 =
      some ((resolveSession ctx history freshId inp.conversation_id).2.1 ++
        [Message.roleContent "user" inp.text, Message.bare r]) ∧
    ((resolveSession ctx history freshId inp.conversation_id).2.1 ++
        [Message.roleContent "user" inp.text, Message.bare r]).getLast? =
      some (Message.bare r) ∧
    ((∀ c, inp.conversation_id = some c → hget history c = none) →
      (resolveSession ctx history freshId inp.conversation_id).2.1 =
        [Message.roleContent "system" ctx]) := by
  have key := async_process_ok_run client ctx history freshId inp r
    (resolveSession ctx history freshId inp.conversation_id).1
    (resolveSession ctx history freshId inp.conversation_id).2.1
    (resolveSession ctx history freshId inp.conversation_id).2.2
    rfl hok
  refine ⟨?_, getLast_append_pair _ _ _, ?_⟩
  · rw [key]
    show hget (hset _ _ _) _ = _
    rw [hget_hset_self]
    simp [List.append_assoc]
  · intro hun
    cases hc : inp.conversation_id with
    | none => simp [resolveSession]
    | some c => simp [resolveSession, hun c hc]

/-- Claim C9, witness: the theorem applied to the concrete succeeding client
on a fresh conversation; the stored list is the system record, the user
record, and the bare reply string. -/
theorem c9_reply_stored_as_bare_string_witness :
    (answer_question_using_context clientOk "hi" "ctx").1 = Except.ok "hi there" ∧
    hget (async_process clientOk "ctx" [] "F1" inpHi).2.1 "F1" =
      some [Message.roleContent "system" "ctx", Message.roleContent "user" "hi",
        Message.bare "hi there"] := by
  refine ⟨rfl, ?_⟩
  exact (c9_reply_stored_as_bare_string clientOk "ctx" [] "F1" inpHi "hi there" rfl).1

/-- Claim C10: when the first call of a conversation (no conversation id
presented) fails at the remote step, the freshly minted id is returned but
the session map is unchanged — nothing is stored under that id; a later
call presenting the returned id therefore resolves it as unknown, minting
yet another fresh id seeded with a fresh system message, and returns that
second id. -/
theorem c10_failed_first_call_not_stored (client : GradioClient) (ctx : String)
    (history : History) (freshId1 freshId2 t1 t2 lang : String) (e : String)
    (hfresh1 : hget history freshId1 = none)
    (hfail : (answer_question_using_context client t1 ctx).1 = Except.error e) :
    (async_process client ctx history freshId1
        { text := t1, conversation_id := none, language := lang }).1.conversation_id =
      freshId1 ∧
    (async_process client ctx history freshId1
        { text := t1, conversation_id := none, language := lang }).2.1 = history ∧
    hget (async_process client ctx history freshId1
        { text := t1, conversation_id := none, language := lang }).2.1 freshId1 = none ∧
    resolveSession ctx history freshId2 (some freshId1) =
      (freshId2, [Message.roleContent "system" ctx], false) ∧
    (async_process client ctx history freshId2
        { text := t2, conversation_id := some freshId1, language := lang }).1.conversation_id =
      freshId2 := by
  have hres1 : resolveSession ctx history freshId1
      (({ text := t1, conversation_id := none, language := lang } :
        ConversationInput)).conversation_id =
      (freshId1, [Message.roleContent "system" ctx], false) := rfl
  have key := async_process_err_run client ctx history freshId1
    { text := t1, conversation_id := none, language := lang } e freshId1
    [Message.roleContent "system" ctx] false hres1 hfail
  have hres2 : resolveSession ctx history freshId2 (some freshId1) =
      (freshId2, [Message.roleContent "system" ctx], false) := by
    simp [resolveSession, hfresh1]
  refine ⟨?_, ?_, ?_, hres2, ?_⟩
  · rw [key]
  · rw [key]
    rfl
  · rw [key]
    exact hfresh1
  · rw [async_process_conversation_id, hres2]

/-- Claim C10, witness: the theorem applied to the failing client on an
empty session map. -/
theorem c10_failed_first_call_not_stored_witness :
    hget ([] : History) "F1" = none ∧
    (answer_question_using_context clientFail "hi" "ctx").1 = Except.error "boom" ∧
    ((async_process clientFail "ctx" [] "F1"
        { text := "hi", conversation_id := none, language := "en" }).1.conversation_id =
      "F1" ∧
    (async_process clientFail "ctx" [] "F1"
        { text := "hi", conversation_id := none, language := "en" }).2.1 = [] ∧
    hget (async_process clientFail "ctx" [] "F1"
        { text := "hi", conversation_id := none, language := "en" }).2.1 "F1" = none ∧
    resolveSession "ctx" [] "F2" (some "F1") =
      ("F2", [Message.roleContent "system" "ctx"], false) ∧
    (async_process clientFail "ctx" [] "F2"
        { text := "again", conversation_id := some "F1", language := "en" }).1.conversation_id =
      "F2") := by
  exact ⟨rfl, rfl,
    c10_failed_first_call_not_stored clientFail "ctx" [] "F1" "F2" "hi" "again" "en" "boom"
      rfl rfl⟩

/-- Each utterance of a successful run contributes exactly two stored
entries. -/
theorem turnsFor_length (client : GradioClient) (ctx : String) (ts : List String) :
    (turnsFor client ctx ts).length = 2 * ts.length := by
  induction ts with
  | nil => simp [turnsFor]
  | cons t ts ih =>
    simp only [turnsFor, List.length_cons, List.length]
    omega

/-- Folding successful calls over a stored session appends the user/reply
pair of every utterance in arrival order, preserves the session count, and
leaves every other session untouched. -/
theorem processCalls_ok (client : GradioClient) (ctx lang : String)
    (ts : List String) :
    ∀ (h : History) (cid : String) (L : List Message),
      hget h cid = some L →
      (∀ t, t ∈ ts → (remoteReply client ctx t).isOk = true) →
      hget (processCalls client ctx h cid lang ts) cid =
        some (L ++ turnsFor client ctx ts) ∧
      sessionCount (processCalls client ctx h cid lang ts) = sessionCount h ∧
      ∀ c, c ≠ cid → hget (processCalls client ctx h cid lang ts) c = hget h c := by
  induction ts with
  | nil =>
    intro h cid L hm _
    simp [processCalls, turnsFor, hm]
  | cons t ts ih =>
    intro h cid L hm hall
    obtain ⟨r, hr⟩ : ∃ r, remoteReply client ctx t = Except.ok r := by
      cases hx : remoteReply client ctx t with
      | ok v => exact ⟨v, rfl⟩
      | error er =>
        have hbad := hall t (List.mem_cons_self t ts)
        rw [hx] at hbad
        simp [Except.isOk, Except.toBool] at hbad
    have hres : resolveSession ctx h cid (some cid) = (cid, L, true) := by
      simp [resolveSession, hm]
    have key := async_process_ok_run client ctx h cid
      { text := t, conversation_id := some cid, language := lang } r cid L true hres hr
    have hstep : (async_process client ctx h cid
        { text := t, conversation_id := some cid, language := lang }).2.1 =
        hset h cid (L ++ [Message.roleContent "user" t] ++ [Message.bare r]) := by
      rw [key]
      simp [hset_hset]
    have hall2 : ∀ t2, t2 ∈ ts → (remoteReply client ctx t2).isOk = true :=
      fun t2 ht2 => hall t2 (List.mem_cons_of_mem _ ht2)
    have ihh := ih (hset h cid (L ++ [Message.roleContent "user" t] ++ [Message.bare r]))
      cid (L ++ [Message.roleContent "user" t] ++ [Message.bare r])
      (hget_hset_self _ _ _) hall2
    refine ⟨?_, ?_, ?_⟩
    · simp only [processCalls]
      rw [hstep, ihh.1]
      simp [turnsFor, hr, okValue, List.append_assoc]
    · simp only [processCalls]
      rw [hstep, ihh.2.1]
      exact sessionCount_hset_mem h cid _ L hm
    · intro c hc
      simp only [processCalls]
      rw [hstep, ihh.2.2 c hc]
      exact hget_hset_ne h cid c _ hc

/-- Claim C4: a `process` call presenting a previously unseen (or absent)
session identifier, when its remote interaction succeeds, creates exactly
one new session — stored under the freshly minted id, leaving every other
session untouched — whose first stored message is the role/content system
record carrying the current prompt-context template; and after this call
plus N-1 further successful calls on that session the stored list is the
system message followed by the user/reply pairs in arrival order, of length
1 + 2N. -/
theorem c4_session_creation_and_growth (client : GradioClient) (ctx : String)
    (history : History) (freshId lang t0 : String) (cid0 : Option String)
    (ts : List String)
    (hfresh : hget history freshId = none)
    (hunseen : ∀ c, cid0 = some c → hget history c = none)
    (hok : ∀ t, t ∈ t0 :: ts → (remoteReply client ctx t).isOk = true) :
    hget (async_process client ctx history freshId
        { text := t0, conversation_id := cid0, language := lang }).2.1 freshId =
      some (Message.roleContent "system" ctx :: turnsFor client ctx [t0]) ∧
    sessionCount (async_process client ctx history freshId
        { text := t0, conversation_id := cid0, language := lang }).2.1 =
      sessionCount history + 1 ∧
    (∀ c, c ≠ freshId →
      hget (async_process client ctx history freshId
        { text := t0, conversation_id := cid0, language := lang }).2.1 c =
        hget history c) ∧
    hget (processCalls client ctx (async_process client ctx history freshId
        { text := t0, conversation_id := cid0, language := lang }).2.1 freshId lang ts)
        freshId =
      some (Message.roleContent "system" ctx :: turnsFor client ctx (t0 :: ts)) ∧
    (Message.roleContent "system" ctx :: turnsFor client ctx (t0 :: ts)).length =
      1 + 2 * (t0 :: ts).length := by
  obtain ⟨r0, hr0⟩ : ∃ r, remoteReply client ctx t0 = Except.ok r := by
    cases hx : remoteReply client ctx t0 with
    | ok v => exact ⟨v, rfl⟩
    | error er =>
      have hbad := hok t0 (List.mem_cons_self t0 ts)
      rw [hx] at hbad
      simp [Except.isOk, Except.toBool] at hbad
  have hres : resolveSession ctx history freshId cid0 =
      (freshId, [Message.roleContent "system" ctx], false) := by
    cases hc : cid0 with
    | none => simp [resolveSession]
    | some c => simp [resolveSession, hunseen c hc]
  have key := async_process_ok_run client ctx history freshId
    { text := t0, conversation_id := cid0, language := lang } r0 freshId
    [Message.roleContent "system" ctx] false hres hr0
  have hstep : (async_process client ctx history freshId
      { text := t0, conversation_id := cid0, language := lang }).2.1 =
      hset history freshId
        ([Message.roleContent "system" ctx] ++ [Message.roleContent "user" t0]
          ++ [Message.bare r0]) := by
    rw [key]
    rfl
  have hlist : [Message.roleContent "system" ctx] ++ [Message.roleContent "user" t0]
      ++ [Message.bare r0] =
      Message.roleContent "system" ctx :: turnsFor client ctx [t0] := by
    simp [turnsFor, hr0, okValue]
  have hmem1 : hget (async_process client ctx history freshId
      { text := t0, conversation_id := cid0, language := lang }).2.1 freshId =
      some (Message.roleContent "system" ctx :: turnsFor client ctx [t0]) := by
    rw [hstep, hlist]
    exact hget_hset_self _ _ _
  have hok_ts : ∀ t, t ∈ ts → (remoteReply client ctx t).isOk = true :=
    fun t ht => hok t (List.mem_cons_of_mem _ ht)
  have hrun := processCalls_ok client ctx lang ts
    (async_process client ctx history freshId
      { text := t0, conversation_id := cid0, language := lang }).2.1 freshId
    (Message.roleContent "system" ctx :: turnsFor client ctx [t0]) hmem1 hok_ts
  refine ⟨hmem1, ?_, ?_, ?_, ?_⟩
  · rw [hstep]
    exact sessionCount_hset_fresh history freshId _ hfresh
  · intro c hc
    rw [hstep]
    exact hget_hset_ne history freshId c _ hc
  · rw [hrun.1]
    simp [turnsFor]
  · simp only [List.length_cons, turnsFor_length]
    omega

/-- Claim C4, witness: the theorem applied to the succeeding client on an
empty map, with the two utterances of the spec's scenario; the stored list
reaches length 5 = 1 + 2 * 2. -/
theorem c4_session_creation_and_growth_witness :
    hget ([] : History) "F1" = none ∧
    (∀ t, t ∈ ["hi", "again"] → (remoteReply clientOk "ctx" t).isOk = true) ∧
    hget (processCalls clientOk "ctx" (async_process clientOk "ctx" [] "F1"
        { text := "hi", conversation_id := none, language := "en" }).2.1 "F1" "en"
        ["again"]) "F1" =
      some [Message.roleContent "system" "ctx", Message.roleContent "user" "hi",
        Message.bare "hi there", Message.roleContent "user" "again",
        Message.bare "hi there"] ∧
    sessionCount (async_process clientOk "ctx" [] "F1"
        { text := "hi", conversation_id := none, language := "en" }).2.1 = 1 := by
  have hok : ∀ t, t ∈ ["hi", "again"] → (remoteReply clientOk "ctx" t).isOk = true := by
    intro t ht
    rcases List.mem_cons.mp ht with rfl | ht2
    · rfl
    · rcases List.mem_cons.mp ht2 with rfl | ht3
      · rfl
      · cases ht3
  have h := c4_session_creation_and_growth clientOk "ctx" [] "F1" "en" "hi" none
    ["again"] rfl (fun c hc => by cases hc) hok
  refine ⟨rfl, hok, ?_, ?_⟩
  · exact h.2.2.2.1.trans (by rfl)
  · exact h.2.1
